import Mathlib

/-!
Verification development for the AI_Scraper repository.

The Python sources (`main.py`, `match.py`, `normalize.py`, `config.py`,
`scrape_ai.py`, `database.py`, `nav.py`) are shallowly embedded below:
pure helpers become Lean functions, the regex patterns of `config.py` are
embedded via a small backtracking matcher with Python `re.search`
semantics (leftmost match, greedy quantifiers, left-biased alternation,
capture groups), Python dicts become association lists with right-biased
merge (mirroring the `{**a, **b}` idiom), and code that can raise returns
`Option` (with `none` modelling a propagated exception).
-/

/-! ## Python values and dicts -/

/-- A Python value as it appears in the scraper's field dicts: a string,
an int (the `"studio" -> 0` rewrite produces an int), or `None`. -/
inductive Val where
  | vstr : String → Val
  | vint : Int → Val
  | vnone : Val
deriving DecidableEq, Repr

/-- A Python dict, modelled as an association list with unique keys. -/
abbrev PyDict := List (String × Val)

/-- `d[k]` lookup: `some v` when the key is present, `none` when absent. -/
def lookupD (d : PyDict) (k : String) : Option Val :=
  (d.find? (fun kv => kv.1 = k)).map (fun kv => kv.2)

/-- Whether the dict contains the key. -/
def hasKeyD (d : PyDict) (k : String) : Bool :=
  d.any (fun kv => kv.1 = k)

/-- Python's `{**a, **b}`: keys of both dicts, values of `b` winning on
conflict.  (The association-list order differs from CPython's insertion
order but the key/value mapping is identical.) -/
def pyMerge (a b : PyDict) : PyDict :=
  a.filter (fun kv => ¬ hasKeyD b kv.1) ++ b

/-! ## A matcher for the `config.py` regex patterns

Every quantifier in the `config.py` patterns ranges over a single
character class, so the matcher supports: the empty pattern, a character
class, concatenation, left-biased alternation, a greedy character-class
star, and capture groups 1 and 2.  `?`, `+`, `{1,2}`, `{1,3}` are derived
forms.  Backtracking is implemented in continuation-passing style; the
star tries the longest run first, exactly as Python's greedy `*`. -/

/-- Capture state: the text of groups 1 and 2, `none` when the group did
not participate in the match (Python's `None` group). -/
structure Caps where
  g1 : Option String
  g2 : Option String
deriving DecidableEq, Repr

/-- Result of a successful match attempt: the unconsumed suffix and the
captures. -/
structure MRes where
  rest : List Char
  caps : Caps
deriving Repr

/-- Regular expressions over character-class atoms. -/
inductive RE where
  | eps : RE
  | cls : (Char → Bool) → RE
  | cat : RE → RE → RE
  | alt : RE → RE → RE
  | star : (Char → Bool) → RE
  | grp : Nat → RE → RE

/-- Length of the maximal run of class characters at the head of `s`. -/
def runLen (p : Char → Bool) (s : List Char) : Nat :=
  (s.takeWhile p).length

/-- Greedy star over a character class: try consuming `n` characters,
then `n - 1`, ..., down to `0`, handing the remainder to the
continuation `k`. -/
def starTry (s : List Char) (k : List Char → Option MRes) : Nat → Option MRes
  | 0 => k s
  | n + 1 => (k (s.drop (n + 1))).orElse (fun _ => starTry s k n)

/-- Record group `n` as having matched `text`. -/
def setCap (n : Nat) (text : String) (c : Caps) : Caps :=
  if n = 1 then { c with g1 := some text } else { c with g2 := some text }

/-- The consumed prefix of `s` relative to the suffix `s'`. -/
def consumed (s s' : List Char) : String :=
  String.mk (s.take (s.length - s'.length))

/-- Backtracking matcher in continuation-passing style.  `mrun r s c k`
tries every way for `r` to match a prefix of `s` (in Python's
leftmost-greedy preference order), calling `k` on the remainder and the
updated captures, and yields the first success. -/
def mrun : RE → List Char → Caps → (List Char → Caps → Option MRes) → Option MRes
  | .eps, s, c, k => k s c
  | .cls p, s, c, k =>
    match s with
    | [] => none
    | ch :: t => if p ch then k t c else none
  | .cat a b, s, c, k => mrun a s c (fun s1 c1 => mrun b s1 c1 k)
  | .alt a b, s, c, k => (mrun a s c k).orElse (fun _ => mrun b s c k)
  | .star p, s, c, k => starTry s (fun s1 => k s1 c) (runLen p s)
  | .grp n a, s, c, k => mrun a s c (fun s1 c1 => k s1 (setCap n (consumed s s1) c1))

/-- Match `r` against a prefix of `s`; on success return the consumed
length and the captures. -/
def matchAt (r : RE) (s : List Char) : Option (Nat × Caps) :=
  match mrun r s ⟨none, none⟩ (fun rest caps => some ⟨rest, caps⟩) with
  | none => none
  | some res => some (s.length - res.rest.length, res.caps)

/-- A Python `re.Match`: span and captures. -/
structure PyMatch where
  start : Nat
  stop : Nat
  g1 : Option String
  g2 : Option String
deriving DecidableEq, Repr

/-- Try to match at offset `i`, then `i + 1`, ... (Python `re.search`'s
leftmost rule). -/
def searchAux (r : RE) : List Char → Nat → Option PyMatch
  | s, i =>
    match matchAt r s with
    | some (len, caps) => some ⟨i, i + len, caps.g1, caps.g2⟩
    | none =>
      match s with
      | [] => none
      | _ :: t => searchAux r t (i + 1)

/-- `re.search(pattern, text, pos)`: leftmost match at or after `pos`. -/
def research (r : RE) (text : String) (pos : Nat) : Option PyMatch :=
  searchAux r (text.toList.drop pos) pos

/-! ### Derived pattern forms -/

/-- `r?` (greedy: try `r` first). -/
def reOpt (r : RE) : RE := .alt r .eps

/-- `p+` for a character class `p`. -/
def rePlus (p : Char → Bool) : RE := .cat (.cls p) (.star p)

/-- `p{1,2}` for a character class `p`. -/
def rep12 (p : Char → Bool) : RE := .cat (.cls p) (reOpt (.cls p))

/-- `p{1,3}` for a character class `p`. -/
def rep13 (p : Char → Bool) : RE := .cat (.cls p) (reOpt (.cat (.cls p) (reOpt (.cls p))))

/-- A case-sensitive literal character. -/
def rchr (d : Char) : RE := .cls (fun c => c = d)

/-- A case-insensitive literal character (`d` given in lowercase),
modelling the `(?i)` flag. -/
def ichr (d : Char) : RE := .cls (fun c => c.toLower = d)

/-- A case-sensitive literal string. -/
def rlit (w : String) : RE := w.toList.foldr (fun c r => .cat (rchr c) r) .eps

/-- A case-insensitive literal string (`w` given in lowercase). -/
def ilit (w : String) : RE := w.toList.foldr (fun c r => .cat (ichr c) r) .eps

/-! ### Character classes used by `config.py` -/

/-- Python `\s` (ASCII range). -/
def isWs (c : Char) : Bool :=
  c = ' ' ∨ c = '\t' ∨ c = '\n' ∨ c = '\r' ∨ c = '\x0b' ∨ c = '\x0c'

/-- `[1-9]`. -/
def isNonzeroDigit (c : Char) : Bool := '1' ≤ c ∧ c ≤ '9'

/-- `[\d,]`. -/
def isDigitComma (c : Char) : Bool := c.isDigit ∨ c = ','

/-- Python `.` (any character except a newline). -/
def isAnyNotNl (c : Char) : Bool := c ≠ '\n'

/-- `[-–]` (hyphen or en-dash). -/
def isDash (c : Char) : Bool := c = '-' ∨ c = '–'

/-! ### The `config.py` `regex_patterns` table -/

/-- Right-nested concatenation of a pattern sequence. -/
def reSeq (l : List RE) : RE := l.foldr .cat .eps

/-- `config.py` `"floorplan"`: `/#?floor-?plans?/?` (case-sensitive). -/
def re_floorplan : RE :=
  reSeq [rchr '/', reOpt (rchr '#'), rlit ("floor"), reOpt (rchr '-'),
    rlit ("plan"), reOpt (rchr 's'), reOpt (rchr '/')]

/-- `config.py` `"bedrooms1"`: `(?i)(studio|[1-9]{1})\s{1,3}(?:beds?|bd)`. -/
def re_bedrooms1 : RE :=
  reSeq [.grp 1 (.alt (ilit ("studio")) (.cls isNonzeroDigit)), rep13 isWs,
    .alt (.cat (ilit ("bed")) (reOpt (ichr 's'))) (ilit ("bd"))]

/-- `config.py` `"bedrooms2"`: `(?i)(?:beds?:?|bd:?)\s{1,3}(studio|[1-9]{1})`. -/
def re_bedrooms2 : RE :=
  reSeq [.alt (reSeq [ilit ("bed"), reOpt (ichr 's'), reOpt (rchr ':')])
      (.cat (ilit ("bd")) (reOpt (rchr ':'))),
    rep13 isWs, .grp 1 (.alt (ilit ("studio")) (.cls isNonzeroDigit))]

/-- `config.py` `"bathrooms1"`: `(?i)([1-9]{1})(?:\.[0-9]{1,2})?\s{1,3}(?:baths?|ba)`. -/
def re_bathrooms1 : RE :=
  reSeq [.grp 1 (.cls isNonzeroDigit), reOpt (.cat (rchr '.') (rep12 Char.isDigit)),
    rep13 isWs, .alt (.cat (ilit ("bath")) (reOpt (ichr 's'))) (ilit ("ba"))]

/-- `config.py` `"bathrooms2"`: `(?i)(?:baths?:?|ba:?)\s{1,3}([1-9]{1})(?:\.[0-9]{1,2})?`. -/
def re_bathrooms2 : RE :=
  reSeq [.alt (reSeq [ilit ("bath"), reOpt (ichr 's'), reOpt (rchr ':')])
      (.cat (ilit ("ba")) (reOpt (rchr ':'))),
    rep13 isWs, .grp 1 (.cls isNonzeroDigit),
    reOpt (.cat (rchr '.') (rep12 Char.isDigit))]

/-- `config.py` `"sqft1"`: `(?i)(\d+)\s{1,3}(?:sq.?\s*ft\.?\s*)` (the first
`.` is the any-character metachar, the second is the escaped literal dot). -/
def re_sqft1 : RE :=
  reSeq [.grp 1 (rePlus Char.isDigit), rep13 isWs, ilit ("sq"),
    reOpt (.cls isAnyNotNl), .star isWs, ilit ("ft"), reOpt (rchr '.'), .star isWs]

/-- `config.py` `"sqft2"`: `(?:sq.?\s*ft.?\s*:?)\s{1,3}(\d+)` — note: no
`(?i)` flag (case-sensitive), and both `.` are the any-character metachar. -/
def re_sqft2 : RE :=
  reSeq [rlit ("sq"), reOpt (.cls isAnyNotNl), .star isWs, rlit ("ft"),
    reOpt (.cls isAnyNotNl), .star isWs, reOpt (rchr ':'), rep13 isWs,
    .grp 1 (rePlus Char.isDigit)]

/-- A price number: `[\d,]+(?:\.\d{2})?`. -/
def rePriceNum : RE :=
  .cat (rePlus isDigitComma) (reOpt (reSeq [rchr '.', .cls Char.isDigit, .cls Char.isDigit]))

/-- `config.py` `"price"`:
`\$\s*([\d,]+(?:\.\d{2})?)\s*(?:[-–]|to\s*[-–]?)?\s*\$?\s*([\d,]+(?:\.\d{2})?)?`. -/
def re_price : RE :=
  reSeq [rchr '$', .star isWs, .grp 1 rePriceNum, .star isWs,
    reOpt (.alt (.cls isDash) (reSeq [rlit ("to"), .star isWs, reOpt (.cls isDash)])),
    .star isWs, reOpt (rchr '$'), .star isWs, reOpt (.grp 2 rePriceNum)]

/-- `config.py` `"availability1"`: `(?i)(\d)\s*Available\s(units?)`. -/
def re_availability1 : RE :=
  reSeq [.grp 1 (.cls Char.isDigit), .star isWs, ilit ("available"), .cls isWs,
    .grp 2 (.cat (ilit ("unit")) (reOpt (ichr 's')))]

/-! ## `normalize.py` -/

/-- `price.replace(",", "").replace("$", "")`: remove every comma and
dollar sign. -/
def stripMoney (p : String) : String :=
  String.mk (p.toList.filter (fun c => ¬ (c = ',' ∨ c = '$')))

/-- Value of a digit string (most significant first). -/
def digitsVal (l : List Char) : Int :=
  ((l.foldl (fun a c => a * 10 + (c.toNat - '0'.toNat)) 0 : Nat) : Int)

/-- Python `int(float(s))` for the strings this program feeds it (digits
with an optional fractional part): `none` models the `ValueError` raised
when the string parses as neither (e.g. the empty string). -/
def pyFloatInt (s : String) : Option Int :=
  let cs := s.toList
  let ip := cs.takeWhile Char.isDigit
  let rest := cs.dropWhile Char.isDigit
  match rest with
  | [] => if ip.isEmpty then none else some (digitsVal ip)
  | '.' :: frac =>
    if frac.all Char.isDigit ∧ (¬ ip.isEmpty ∨ ¬ frac.isEmpty) then some (digitsVal ip)
    else none
  | _ => none

/-- `normalize.py` `Normalizer.normalize_price`:
`int(float(price.replace(",","").replace("$","")))`; `none` models the
exception raised on an unparseable string. -/
def normalize_price (price : String) : Option Int :=
  pyFloatInt (stripMoney price)

/-- `normalize.py` `Normalizer.normalize_price_range`: normalizes each
present bound and compares.  `some b` is the Python return value `b`;
`none` models a `ValueError` escaping from `normalize_price`. -/
def normalize_price_range (low high : Option String) : Option Bool :=
  match low, high with
  | none, none => some false
  | none, some h =>
    match normalize_price h with
    | none => none
    | some _ => some false
  | some l, none =>
    match normalize_price l with
    | none => none
    | some _ => some true
  | some l, some h =>
    match normalize_price l, normalize_price h with
    | some lo, some hi => some (¬ (hi < lo))
    | _, _ => none

/-! ## `match.py` -/

/-- Python `s.lower()` (character-wise, via the char list so that the
kernel can evaluate it). -/
def pyLower (s : String) : String :=
  String.mk (s.toList.map Char.toLower)

/-- Python `s.startswith(pre)`. -/
def pyStartsWith (s pre : String) : Bool :=
  s.toList.take pre.toList.length = pre.toList

/-- Python `s.endswith(suf)`. -/
def pyEndsWith (s suf : String) : Bool :=
  s.toList.reverse.take suf.toList.length = suf.toList.reverse

/-- Python `s[1:]`. -/
def pyDrop1 (s : String) : String :=
  String.mk (s.toList.drop 1)

/-- A captured group as a Python value (`None` when absent). -/
def valOfOpt (o : Option String) : Val :=
  match o with
  | some s => .vstr s
  | none => .vnone

/-- `match.py` `Match.match_fp`: scan the links in order, return the
first href that is truthy and contains a floor-plan path, made absolute.
Links are represented by their `href` values (`none` for buttons without
an href). -/
def match_fp (url : String) : List (Option String) → Option String
  | [] => none
  | none :: rest => match_fp url rest
  | some l :: rest =>
    if l ≠ "" then
      match research re_floorplan l 0 with
      | some _ =>
        some (if pyStartsWith l ("http") then l
          else if pyEndsWith url ("/") then url ++ pyDrop1 l
          else url ++ l)
      | none => match_fp url rest
    else match_fp url rest

/-- `match.py` `Match.match_listing`: the dual-phrasing regex passes for
bedrooms, bathrooms (searched from just after a first-phrasing bedroom
match) and square footage, with the `"studio" -> 0` rewrite.  Always
returns a dict with exactly the keys `bedrooms`, `bathrooms`, `sqft`. -/
def match_listing (text : String) : PyDict :=
  let tb : Option PyMatch × Option PyMatch :=
    match research re_bedrooms1 text 0 with
    | some m => (some m, research re_bathrooms1 text m.stop)
    | none => (research re_bedrooms2 text 0, research re_bathrooms2 text 0)
  let t_sqft : Option PyMatch :=
    match research re_sqft1 text 0 with
    | some m => some m
    | none => research re_sqft2 text 0
  let beds0 : Option String := tb.1.bind (fun m => m.g1)
  let baths : Option String := tb.2.bind (fun m => m.g1)
  let sqft : Option String := t_sqft.bind (fun m => m.g1)
  let beds : Val :=
    match beds0 with
    | some s => if s ≠ "" ∧ pyLower s = ("studio") then .vint 0 else .vstr s
    | none => .vnone
  [("bedrooms", beds), ("bathrooms", valOfOpt baths), ("sqft", valOfOpt sqft)]

/-- The price groups `match_snapshot` extracts: `t_price.groups()` when
the price pattern matched, else `(None, None)`. -/
def priceGroups (text : String) : Option String × Option String :=
  match research re_price text 0 with
  | some m => (m.g1, m.g2)
  | none => (none, none)

/-- `match.py` `Match.match_snapshot`: extract the price pair and the
availability count; a pair failing `normalize_price_range` is discarded
entirely.  `none` models a `ValueError` escaping from normalization. -/
def match_snapshot (text : String) : Option PyDict :=
  let lo := (priceGroups text).1
  let hi := (priceGroups text).2
  match normalize_price_range lo hi with
  | none => none
  | some ok =>
    let lo := if ok then lo else none
    let hi := if ok then hi else none
    let avail := (research re_availability1 text 0).bind (fun m => m.g1)
    some [("price_low", valOfOpt lo), ("price_high", valOfOpt hi),
      ("availability", valOfOpt avail)]

/-! ## `scrape_ai.py` -/

/-- Python `s.strip()` (whitespace from both ends). -/
def pyStrip (s : String) : String :=
  String.mk (((s.toList.dropWhile isWs).reverse.dropWhile isWs).reverse)

/-- The first fix of `sanitize_selector`:
`re.sub(r"^\.([a-zA-Z]+)([.#])", r"\1\2", sel)` — a leading dot before a
run of letters followed by `.` or `#` is removed. -/
def subDotElemCompound (s : String) : String :=
  match s.toList with
  | '.' :: rest =>
    let letters := rest.takeWhile Char.isAlpha
    let after := rest.dropWhile Char.isAlpha
    match letters, after with
    | _ :: _, c :: _ => if c = '.' ∨ c = '#' then String.mk rest else s
    | _, _ => s
  | _ => s

/-- The second fix of `sanitize_selector`:
`re.sub(r"^\.([a-zA-Z][a-zA-Z0-9_-]*)", r"\1", sel)` — a leading dot
before a letter is removed. -/
def subDotElem (s : String) : String :=
  match s.toList with
  | '.' :: c :: rest => if c.isAlpha then String.mk (c :: rest) else s
  | _ => s

/-- `scrape_ai.py` `sanitize_selector`: strip, fix a leading erroneous
dot, and normalize double quotes to single quotes. -/
def sanitize_selector (selector : String) : String :=
  let sel := pyStrip selector
  let sel := subDotElemCompound sel
  let sel := subDotElem sel
  String.mk (sel.toList.map (fun c => if c = '"' then '\'' else c))

/-- The schema keys `ai_parse_listings` may request. -/
def listingPropKeys : List String := ["listname", "bedrooms", "bathrooms", "sqft"]

/-- The schema keys `ai_parse_listing_snapshots` may request. -/
def snapshotPropKeys : List String :=
  ["listname", "availability", "price_low", "price_high", "pre_deal_price"]

/-- The schema keys `ai_init` may request. -/
def sitePropKeys : List String := ["deals", "amenities", "state", "address", "floorplans_url"]

/-- The keys still requested from the extractor after
`for key, value in filled.items(): if value != None: props.pop(key, None)`
— a key is dropped exactly when `filled` maps it to a non-`None` value. -/
def requestedKeys (allKeys : List String) (filled : PyDict) : List String :=
  allKeys.filter (fun k =>
    match lookupD filled k with
    | some v => decide (v = Val.vnone)
    | none => true)

/-- The keys still requested after
`for key in filled.keys(): props.pop(key, None)` (`ai_init`'s variant:
any present key is dropped, whatever its value). -/
def requestedKeysAny (allKeys : List String) (filled : PyDict) : List String :=
  allKeys.filter (fun k => ¬ hasKeyD filled k)

/-- `scrape_ai.py` `ai_parse_listings`: request only the fields `filled`
does not already resolve; if none remain, skip the call and return `{}`.
The semantic extractor itself is the environment, modelled as a function
`reply` from the requested keys to the parsed JSON dict it returns. -/
def ai_parse_listings (reply : List String → PyDict) (filled : PyDict) : PyDict :=
  let props := requestedKeys listingPropKeys filled
  if props.isEmpty then [] else reply props

/-- `scrape_ai.py` `ai_parse_listing_snapshots` (same structure as
`ai_parse_listings`, over the snapshot schema keys). -/
def ai_parse_listing_snapshots (reply : List String → PyDict) (filled : PyDict) : PyDict :=
  let props := requestedKeys snapshotPropKeys filled
  if props.isEmpty then [] else reply props

/-- `scrape_ai.py` `ai_init`: request the site fields not already present
in `filled` (this variant drops any present key regardless of value). -/
def ai_init (reply : List String → PyDict) (filled : PyDict) : PyDict :=
  let props := requestedKeysAny sitePropKeys filled
  if props.isEmpty then [] else reply props

/-! ## `main.py` -/

/-- `main.py` `init_site` (lines 55-62): compute `regex_filled` from
`match_fp`, ask the extractor for the rest, and merge with
`site_data = {**ai_filled, **regex_filled}` — the regex dict on the
right, so its entries win. -/
def init_site_data (reply : List String → PyDict) (url : String)
    (hrefs : List (Option String)) : PyDict :=
  let regexFilled : PyDict :=
    match match_fp url hrefs with
    | some link => [("floorplans_url", Val.vstr link)]
    | none => []
  pyMerge (ai_init reply regexFilled) regexFilled

/-- Python attribute access `obj.attr` on a plain dict: a dict stores its
entries as items, not attributes, so the access raises `AttributeError`
whatever the key; `none` models the exception.  (`main.py:72` passes the
merged `site_data` dict where `database.py` expects a `Site` object — an
object `database.py` cannot even import, since `Site` is commented out in
`scrape_ai.py`.) -/
def pyDictGetAttr (_d : PyDict) (_attr : String) : Option Val := none

/-- `database.py` `insert_site` as called from `main.py:72` with the
plain merged dict: its first statement `if site.floorplans_url:`
(database.py:65) performs an attribute access on the dict and raises
`AttributeError` before any UPDATE executes.  `some` would carry the row
fields written; `none` models the exception, so nothing is persisted. -/
def insert_site (_siteId : Nat) (site : PyDict) : Option PyDict :=
  match pyDictGetAttr site ("floorplans_url") with
  | none => none
  | some _ => some site

/-- `main.py` `init_site` end-to-end persistence outcome (lines 70-73):
the merged `site_data` is handed to `db.insert_site`, which raises, so no
site row is ever written (`none`). -/
def init_site_persisted (reply : List String → PyDict) (url : String)
    (hrefs : List (Option String)) : Option PyDict :=
  insert_site 0 (init_site_data reply url hrefs)

/-- `main.py` `select`, candidate loop (lines 159-178): sanitize each
candidate in rank order; a zero count models `wait_for_selector` timing
out (the `except: continue` path); accept the first candidate whose
element count satisfies `1 < element_count <= 50`. -/
def testCandidates (counts : String → Nat) : List String → Option String
  | [] => none
  | cand :: rest =>
    let c := sanitize_selector cand
    let n := counts c
    if n = 0 then testCandidates counts rest
    else if 1 < n ∧ n ≤ 50 then some c
    else testCandidates counts rest

/-- The stored-selector slot of the owner scope's row
(`database.py` `get_selector` / `save_selector`). -/
structure SelDB where
  selector : Option String
deriving DecidableEq, Repr

/-- Observable outcome of `main.py` `select`: the returned selector, the
database slot afterwards, whether discovery ran, and whether `select`
itself closed the database (it does on its failure paths). -/
structure SelectOut where
  result : Option String
  db : SelDB
  discovered : Bool
  dbClosedEarly : Bool
deriving DecidableEq, Repr

/-- Python truthiness of an optional string (`if not selector`). -/
def pyTruthyStr : Option String → Bool
  | none => false
  | some s => s ≠ ""

/-- `main.py` `select` (lines 140-188): return a truthy stored selector
immediately; otherwise run discovery (`propose = none` models
`get_text`/`init_container` raising), test candidates, and either save
the chosen selector or fail with `None`. -/
def select (propose : Option (List String)) (counts : String → Nat) (db : SelDB) : SelectOut :=
  if pyTruthyStr db.selector then ⟨db.selector, db, false, false⟩
  else
    match propose with
    | none => ⟨none, db, true, true⟩
    | some cands =>
      match testCandidates counts cands with
      | none => ⟨none, db, true, true⟩
      | some chosen => ⟨some chosen, ⟨some chosen⟩, true, false⟩

/-- `main.py` `get_listings`, body of the per-snippet loop:
`{**regex_listing, **ai_listing}`. -/
def mergedListing (reply : List String → PyDict) (lt : String) : PyDict :=
  let regexListing := match_listing lt
  pyMerge regexListing (ai_parse_listings reply regexListing)

/-- `main.py` `get_listings`: one merged dict per snippet. -/
def get_listings (reply : String → List String → PyDict) (listingText : List String) :
    List PyDict :=
  listingText.map (fun lt => mergedListing (reply lt) lt)

/-- `main.py` `get_snapshots`, body of the per-snippet loop:
`{**regex_snapshot, **ai_snapshot}`; `none` models `match_snapshot`
raising. -/
def mergedSnapshot (reply : List String → PyDict) (st : String) : Option PyDict :=
  match match_snapshot st with
  | none => none
  | some regexSnapshot =>
    some (pyMerge regexSnapshot (ai_parse_listing_snapshots reply regexSnapshot))

/-- `main.py` `get_snapshots`: one merged dict per snippet; `none` when
any snippet raises. -/
def get_snapshots (reply : String → List String → PyDict) (snapshotText : List String) :
    Option (List PyDict) :=
  snapshotText.foldr
    (fun st acc =>
      match mergedSnapshot (reply st) st, acc with
      | some d, some l => some (d :: l)
      | _, _ => none)
    (some [])

/-- Environment of one `scrape_fp` task: whether the page loaded within
the timeout, the discovery proposals, the live page (a selector's matched
elements, in order, by inner HTML), the persisted listing count, and the
semantic extractor's replies per snippet. -/
structure ScrapeEnv where
  navOk : Bool
  propose : Option (List String)
  page : String → List String
  prevCount : Option Nat
  listingReply : String → List String → PyDict
  snapshotReply : String → List String → PyDict

/-- Observable outcome of one `scrape_fp` task.  Insert *calls* are
recorded separately from *written* rows, because the two insert calls in
`main.py` cannot succeed: `main.py:122` passes
`(floorplan.site_id, listings)` to `insert_listings`, whose signature is
`(site_id, property_id, listings)` (database.py:108-113), and
`main.py:129` passes `(floorplan.site_id, snapshots)` to
`insert_listing_snapshots`, whose signature is
`(site_id, property_id, snaps)` (database.py:141) — each call raises
`TypeError` before any SQL runs.  `listingInsertCall` /
`snapshotInsertCall` hold the rows an attempted call carried (`none` when
the call was never reached); `listingsWritten` / `snapshotsWritten`
record whether rows actually landed (never, on this code). -/
structure ScrapeResult where
  selectorUsed : Option String
  listingInsertCall : Option (List PyDict)
  listingsWritten : Bool
  countUpdated : Option Nat
  snapshotInsertCall : Option (List PyDict)
  snapshotsWritten : Bool
  navClosed : Bool
  dbClosed : Bool
deriving DecidableEq, Repr

/-- The tail of `scrape_fp`'s `try` block from `main.py:128` on: extract
the snapshots (`none` models `match_snapshot` raising) and call
`db.insert_listing_snapshots(floorplan.site_id, snapshots)` — a call that
raises `TypeError` (two arguments against database.py:141's three), so
the attempt is recorded but nothing is written; the `except`/`finally`
arms then close both resources. -/
def snapshotPhase (env : ScrapeEnv) (selector : String) (snippets : List String) :
    ScrapeResult :=
  match get_snapshots env.snapshotReply snippets with
  | none => ⟨some selector, none, false, none, none, false, true, true⟩
  | some snaps => ⟨some selector, none, false, none, some snaps, false, true, true⟩

/-- `main.py` `scrape_fp` (lines 85-136): a navigation timeout returns at
once (closing nothing, lines 93-95); a failed `select` returns after
`select`'s own cleanup plus `nav.close()`; a zero live count makes
`wait_for_selector` raise into the `except` arm (no insert call, `finally`
closes both).  Otherwise, when the persisted count is absent or differs,
listings are extracted and `db.insert_listings(floorplan.site_id,
listings)` is called — raising `TypeError` (two arguments against
database.py:108's three) into the `except` arm, so no listing row is ever
written, `update_listing_count` on the next line is never reached, and
the snapshot phase is never entered; when the counts are equal (or the
extracted listing list is empty) the flow falls through to the snapshot
phase, whose own insert call raises the same way. -/
def scrape_fp (env : ScrapeEnv) (db : SelDB) : ScrapeResult :=
  if ¬ env.navOk then ⟨none, none, false, none, none, false, false, false⟩
  else
    let so := select env.propose (fun s => (env.page s).length) db
    match so.result with
    | none => ⟨none, none, false, none, none, false, true, true⟩
    | some selector =>
      let count := (env.page selector).length
      let prev := env.prevCount
      if count = 0 then ⟨some selector, none, false, none, none, false, true, true⟩
      else
        let snippets := env.page selector
        if prev = none ∨ ¬ (prev = some count) then
          let listings := get_listings env.listingReply snippets
          if listings.isEmpty then snapshotPhase env selector snippets
          else ⟨some selector, some listings, false, none, none, false, true, true⟩
        else snapshotPhase env selector snippets

/-! ## Concrete environments and replies used by the claim theorems -/

/-- The extractor reply used to exhibit the C1 conflict: it returns a
`bedrooms` value even though `bedrooms` was not among the requested
fields. -/
def c1ConflictReply : List String → PyDict := fun _ => [("bedrooms", Val.vint 5)]

/-- The schema-compliant extractor reply of the spec's example: `sqft`
answered with `"850"`, nothing else. -/
def c1ReplyW : List String → PyDict :=
  fun ps => if ("sqft" : String) ∈ ps then [("sqft", Val.vstr ("850"))] else []

/-- Live match counts realizing the spec's `[1, 3, 60]` example. -/
def c2Counts : String → Nat :=
  fun s => if s = "div.one" then 1 else if s = "div.three" then 3 else 60

/-- The selector the claimed heuristic fallback would synthesize for a
page whose ids share the frequent literal part `eg-post-id-`
(written via a char list: the text is `[id^=`, a quote, `eg-post-id-`, a
quote, `]`). -/
def fallbackSel : String :=
  String.mk ['[', 'i', 'd', '^', '=', '\'', 'e', 'g', '-', 'p', 'o', 's', 't', '-', 'i',
    'd', '-', '\'', ']']

/-- A live page on which the synthesized fallback selector would match 10
elements (inside the claimed `(0, 100]` window) while every proposed
candidate matches nothing. -/
def c3Counts : String → Nat := fun s => if s = fallbackSel then 10 else 0

/-- A cached target with one live listing card and a matching persisted
count of 1 (the skip branch of change detection). -/
def c4EnvEq : ScrapeEnv :=
  ⟨true, none, fun t => if t = "div.card" then [("2 Beds")] else [], some 1,
    fun _ _ => [], fun _ _ => []⟩

/-- The same live page with a differing persisted count of 5 (the
full-extraction branch of change detection). -/
def c4EnvDiff : ScrapeEnv :=
  ⟨true, none, fun t => if t = "div.card" then [("2 Beds")] else [], some 5,
    fun _ _ => [], fun _ _ => []⟩

/-- A task whose page navigation times out (`nav.get_page` raises
`TimeoutError` after 20s). -/
def c9EnvTimeout : ScrapeEnv :=
  ⟨false, none, fun _ => [], none, fun _ _ => [], fun _ _ => []⟩

/-- The semantic extractor's conflicting classification reply: it
proposes its own floor-plans URL. -/
def c8Reply : List String → PyDict :=
  fun _ => [("floorplans_url", Val.vstr ("https://ai.example/fp"))]

/-! ## Dict lookup lemmas -/

theorem lookupD_eq_none_of_hasKeyD_false (d : PyDict) (k : String)
    (h : hasKeyD d k = false) : lookupD d k = none := by
  unfold lookupD
  rw [List.find?_eq_none.mpr, Option.map_none']
  intro kv hmem
  simp only [hasKeyD, List.any_eq_false] at h
  simpa using h kv hmem

theorem lookupD_isSome_of_hasKeyD (d : PyDict) (k : String)
    (h : hasKeyD d k = true) : ∃ v, lookupD d k = some v := by
  simp only [hasKeyD, List.any_eq_true, decide_eq_true_eq] at h
  obtain ⟨kv, hmem, hkey⟩ := h
  have hfind : (d.find? (fun kv => kv.1 = k)).isSome := by
    apply List.find?_isSome.mpr
    exact ⟨kv, hmem, by simpa using hkey⟩
  obtain ⟨kv', hkv'⟩ := Option.isSome_iff_exists.mp hfind
  exact ⟨kv'.2, by simp [lookupD, hkv']⟩

theorem lookupD_pyMerge (a b : PyDict) (k : String) :
    lookupD (pyMerge a b) k = if hasKeyD b k then lookupD b k else lookupD a k := by
  by_cases hb : hasKeyD b k
  · simp only [hb, if_true]
    unfold pyMerge lookupD
    rw [List.find?_append]
    have : (a.filter (fun kv => ¬ hasKeyD b kv.1)).find? (fun kv => kv.1 = k) = none := by
      rw [List.find?_eq_none]
      intro kv hmem hkv
      rw [List.mem_filter] at hmem
      simp only [decide_eq_true_eq] at hkv
      simp [hkv, hb] at hmem
    rw [this, Option.none_or]
  · simp only [hb, if_false]
    unfold pyMerge lookupD
    rw [List.find?_append]
    have hbnone : b.find? (fun kv => kv.1 = k) = none := by
      rw [List.find?_eq_none]
      intro kv hmem hkv
      simp only [decide_eq_true_eq] at hkv
      apply hb
      simp only [hasKeyD, List.any_eq_true]
      exact ⟨kv, hmem, by simp [hkv]⟩
    have hfilter : (a.filter (fun kv => ¬ hasKeyD b kv.1)).find? (fun kv => kv.1 = k) =
        a.find? (fun kv => kv.1 = k) := by
      induction a with
      | nil => rfl
      | cons kv t ih =>
        rw [List.filter_cons]
        by_cases hq : hasKeyD b kv.1
        · have hkv : ¬ (kv.1 = k) := fun he => hb (he ▸ hq)
          rw [if_neg (by simpa using hq), List.find?_cons_of_neg _ (by simpa using hkv), ih]
        · rw [if_pos (by simpa using hq)]
          by_cases hkv : kv.1 = k
          · rw [List.find?_cons_of_pos _ (by simpa using hkv),
              List.find?_cons_of_pos _ (by simpa using hkv)]
          · rw [List.find?_cons_of_neg _ (by simpa using hkv),
              List.find?_cons_of_neg _ (by simpa using hkv), ih]
    rw [hfilter, hbnone]
    cases a.find? (fun kv => kv.1 = k) <;> rfl

theorem match_listing_shape (s : String) :
    ∃ b x y, match_listing s = [("bedrooms", b), ("bathrooms", x), ("sqft", y)] :=
  ⟨_, _, _, rfl⟩

theorem match_snapshot_shape (s : String) (d : PyDict) (h : match_snapshot s = some d) :
    ∃ lo hi av, d = [("price_low", lo), ("price_high", hi), ("availability", av)] := by
  unfold match_snapshot at h
  dsimp only at h
  split at h
  · exact absurd h (by simp)
  · exact ⟨_, _, _, (Option.some_injective _ h).symm⟩

theorem ai_parse_listings_keys (reply : List String → PyDict) (filled : PyDict)
    (hk : ∀ ps kv, kv ∈ reply ps → kv.1 ∈ ps)
    (kv : String × Val) (hmem : kv ∈ ai_parse_listings reply filled) :
    kv.1 ∈ requestedKeys listingPropKeys filled := by
  by_cases hp : (requestedKeys listingPropKeys filled).isEmpty
  · simp [ai_parse_listings, hp] at hmem
  · simp only [ai_parse_listings, hp, if_false, Bool.false_eq_true] at hmem
    exact hk _ kv hmem

/-! ## C1 — listing field merge -/

/-- **C1 counterexample.**  On the snippet `"2 Beds"` the regex resolves
`bedrooms = "2"`; if the extractor's reply nevertheless contains a
`bedrooms` entry, the merged listing (`{**regex_listing, **ai_listing}`,
`main.py` line 199) carries the extractor's value, not the regex value —
so "the regex value is the one kept" fails. -/
theorem listing_merge_conflict_counterexample :
    lookupD (match_listing ("2 Beds")) ("bedrooms") = some (Val.vstr ("2")) ∧
    lookupD (ai_parse_listings c1ConflictReply (match_listing ("2 Beds"))) ("bedrooms") =
      some (Val.vint 5) ∧
    lookupD (mergedListing c1ConflictReply ("2 Beds")) ("bedrooms") = some (Val.vint 5) ∧
    Val.vint 5 ≠ Val.vstr ("2") := by decide

/-- **C1 (amended).**  Fields the regex resolves are excluded from the
extractor request; provided the extractor replies only on requested
fields, each merged listing field equals the regex result when present,
else the extractor result, else `None`.  (When the extractor answers an
unrequested field, its value overwrites the regex value — see the
counterexample.) -/
theorem listing_merge_field_resolution (reply : List String → PyDict) (snippet : String)
    (hk : ∀ ps kv, kv ∈ reply ps → kv.1 ∈ ps)
    (f : String) (v : Val) (hf : f ∈ (["bedrooms", "bathrooms", "sqft"] : List String))
    (hv : lookupD (match_listing snippet) f = some v) :
    lookupD (mergedListing reply snippet) f =
      if v = Val.vnone then
        some ((lookupD (ai_parse_listings reply (match_listing snippet)) f).getD Val.vnone)
      else some v := by
  have hmerge : lookupD (mergedListing reply snippet) f =
      if hasKeyD (ai_parse_listings reply (match_listing snippet)) f then
        lookupD (ai_parse_listings reply (match_listing snippet)) f
      else lookupD (match_listing snippet) f := by
    unfold mergedListing
    exact lookupD_pyMerge _ _ f
  by_cases hvn : v = Val.vnone
  · subst hvn
    by_cases hkey : hasKeyD (ai_parse_listings reply (match_listing snippet)) f
    · obtain ⟨w, hw⟩ := lookupD_isSome_of_hasKeyD _ f hkey
      rw [hmerge, if_pos hkey, hw, if_pos rfl]
      rfl
    · rw [hmerge, if_neg hkey, hv, if_pos rfl,
        lookupD_eq_none_of_hasKeyD_false _ f (by simpa using hkey)]
      rfl
  · have hfprops : f ∉ requestedKeys listingPropKeys (match_listing snippet) := by
      intro hmem
      unfold requestedKeys at hmem
      rw [List.mem_filter] at hmem
      have hcond := hmem.2
      simp only [hv] at hcond
      simp only [decide_eq_true_eq] at hcond
      exact hvn hcond
    have hkey : hasKeyD (ai_parse_listings reply (match_listing snippet)) f = false := by
      by_contra hc
      rw [Bool.not_eq_false] at hc
      simp only [hasKeyD, List.any_eq_true, decide_eq_true_eq] at hc
      obtain ⟨kv, hmem, hkv⟩ := hc
      exact hfprops (hkv ▸ ai_parse_listings_keys reply _ hk kv hmem)
    rw [hmerge, if_neg (by simp [hkey]), hv, if_neg hvn]

/-- **C1 witness.**  The spec's example, through the amended theorem:
snippet `"2 Beds"`, extractor reply `{"sqft": "850"}`; the merged listing
has `bedrooms = "2"` (regex), `sqft = "850"` (extractor),
`bathrooms = None`. -/
theorem listing_merge_field_resolution_witness :
    lookupD (mergedListing c1ReplyW ("2 Beds")) ("sqft") = some (Val.vstr ("850")) ∧
    lookupD (mergedListing c1ReplyW ("2 Beds")) ("bedrooms") = some (Val.vstr ("2")) ∧
    lookupD (mergedListing c1ReplyW ("2 Beds")) ("bathrooms") = some Val.vnone := by
  have hk : ∀ ps kv, kv ∈ c1ReplyW ps → kv.1 ∈ ps := by
    intro ps kv h
    unfold c1ReplyW at h
    by_cases hs : ("sqft" : String) ∈ ps
    · rw [if_pos hs] at h
      simp only [List.mem_singleton] at h
      rw [h]
      exact hs
    · rw [if_neg hs] at h
      exact absurd h (List.not_mem_nil kv)
  refine ⟨?_, ?_, ?_⟩
  · have h := listing_merge_field_resolution c1ReplyW ("2 Beds") hk ("sqft") Val.vnone
      (by decide) (by decide)
    rw [h]
    decide
  · have h := listing_merge_field_resolution c1ReplyW ("2 Beds") hk ("bedrooms")
      (Val.vstr ("2")) (by decide) (by decide)
    rw [h]
    decide
  · have h := listing_merge_field_resolution c1ReplyW ("2 Beds") hk ("bathrooms") Val.vnone
      (by decide) (by decide)
    rw [h]
    decide

/-! ## C2 — candidate testing window -/

/-- **C2.**  The candidate loop of `main.py` `select` tries candidates in
rank order and accepts the first whose live match count `n` satisfies
`1 < n <= 50`; earlier candidates that fail the window (including a count
of exactly 1, or a failed wait modelled as count 0) are skipped. -/
theorem candidate_window_first_acceptance (counts : String → Nat) (cs : List String) (k : Nat)
    (hk : k < cs.length)
    (hbefore : ∀ i (hi : i < cs.length), i < k →
      ¬ (1 < counts (sanitize_selector (cs.get ⟨i, hi⟩)) ∧
         counts (sanitize_selector (cs.get ⟨i, hi⟩)) ≤ 50))
    (hacc : 1 < counts (sanitize_selector (cs.get ⟨k, hk⟩)) ∧
            counts (sanitize_selector (cs.get ⟨k, hk⟩)) ≤ 50) :
    testCandidates counts cs = some (sanitize_selector (cs.get ⟨k, hk⟩)) := by
  induction cs generalizing k with
  | nil => exact absurd hk (Nat.not_lt_zero k)
  | cons c rest ih =>
    cases k with
    | zero =>
      have hacc0 : 1 < counts (sanitize_selector c) ∧ counts (sanitize_selector c) ≤ 50 := hacc
      show (if counts (sanitize_selector c) = 0 then testCandidates counts rest
        else if 1 < counts (sanitize_selector c) ∧ counts (sanitize_selector c) ≤ 50 then
          some (sanitize_selector c)
        else testCandidates counts rest) = some (sanitize_selector c)
      rw [if_neg (by omega), if_pos hacc0]
    | succ j =>
      have h0 : ¬ (1 < counts (sanitize_selector c) ∧ counts (sanitize_selector c) ≤ 50) :=
        hbefore 0 (Nat.succ_pos _) (Nat.succ_pos _)
      have hk' : j < rest.length := Nat.lt_of_succ_lt_succ hk
      have htail : testCandidates counts rest = some (sanitize_selector (rest.get ⟨j, hk'⟩)) := by
        apply ih
        · intro i hi hij
          exact hbefore (i + 1) (Nat.succ_lt_succ hi) (Nat.succ_lt_succ hij)
        · exact hacc
      show (if counts (sanitize_selector c) = 0 then testCandidates counts rest
        else if 1 < counts (sanitize_selector c) ∧ counts (sanitize_selector c) ≤ 50 then
          some (sanitize_selector c)
        else testCandidates counts rest) = some (sanitize_selector (rest.get ⟨j, hk'⟩))
      by_cases hz : counts (sanitize_selector c) = 0
      · rw [if_pos hz, htail]
      · rw [if_neg hz, if_neg h0, htail]

/-- **C2 witness.**  With live counts `[1, 3, 60]` the loop rejects the
single-match first candidate and selects the second (count 3). -/
theorem candidate_window_first_acceptance_witness :
    testCandidates c2Counts [("div.one"), ("div.three"), ("div.sixty")] = some ("div.three") := by
  have h := candidate_window_first_acceptance c2Counts
    [("div.one"), ("div.three"), ("div.sixty")] 1 (by decide)
    (by
      intro i hi hij
      interval_cases i
      show ¬ (1 < c2Counts (sanitize_selector ("div.one")) ∧
        c2Counts (sanitize_selector ("div.one")) ≤ 50)
      decide)
    (by
      show 1 < c2Counts (sanitize_selector ("div.three")) ∧
        c2Counts (sanitize_selector ("div.three")) ≤ 50
      decide)
  simpa using h

/-! ## C3 — no heuristic fallback after candidate exhaustion -/

/-- **C3 counterexample.**  With every candidate exhausted and a page on
which the claimed fallback selector would be accepted (count 10), `select`
(`main.py` lines 180-182) still returns no selector: the engine performs
no heuristic id-prefix fallback — that code does not exist (`scrape_ai.py`
ends at the bare "heuristic selector" section header). -/
theorem no_heuristic_fallback_counterexample :
    (select (some [("div.bogus")]) c3Counts ⟨none⟩).result = none ∧
    c3Counts fallbackSel = 10 ∧
    (select (some [("div.bogus")]) c3Counts ⟨none⟩).result ≠ some fallbackSel := by decide

/-- **C3 (amended).**  When every candidate selector is exhausted without
acceptance, discovery fails immediately: `select` returns a null selector,
persists nothing, and closes its resources — no fallback of any kind
runs. -/
theorem exhausted_candidates_fail_immediately (propose : Option (List String))
    (cands : List String) (counts : String → Nat) (db : SelDB)
    (hnc : pyTruthyStr db.selector = false)
    (hp : propose = some cands)
    (hex : testCandidates counts cands = none) :
    select propose counts db = ⟨none, db, true, true⟩ := by
  simp [select, hnc, hp, hex]

/-- **C3 witness.**  A concrete exhausted run: one candidate, zero
matches everywhere, discovery fails with the database row unchanged. -/
theorem exhausted_candidates_fail_immediately_witness :
    select (some [("div.bogus")]) (fun _ => 0) ⟨none⟩ = ⟨none, ⟨none⟩, true, true⟩ :=
  exhausted_candidates_fail_immediately _ [("div.bogus")] (fun _ => 0) ⟨none⟩
    (by decide) rfl (by decide)

/-! ## C7 — cached selector short-circuit -/

/-- **C7.**  For an owner scope whose stored container selector is a
(nonempty) string, `select` returns it immediately and unchanged: no
discovery runs, nothing is saved, the database row is untouched — and a
repeated call on the resulting state returns the same selector again. -/
theorem cached_selector_short_circuit (p₁ p₂ : Option (List String))
    (c₁ c₂ : String → Nat) (db : SelDB) (s : String)
    (hs : db.selector = some s) (hne : s ≠ "") :
    select p₁ c₁ db = ⟨some s, db, false, false⟩ ∧
    (select p₂ c₂ (select p₁ c₁ db).db).result = some s := by
  have ht : pyTruthyStr (some s) = true := by
    simpa [pyTruthyStr] using hne
  constructor
  · simp [select, hs, ht]
  · simp [select, hs, ht]

/-- **C7 witness.**  A concrete cached scope: the stored selector is
returned unchanged by both calls. -/
theorem cached_selector_short_circuit_witness :
    select (some [("div.other")]) (fun _ => 7) ⟨some ("div.card")⟩ =
      ⟨some ("div.card"), ⟨some ("div.card")⟩, false, false⟩ ∧
    (select none (fun _ => 0)
      (select (some [("div.other")]) (fun _ => 7) ⟨some ("div.card")⟩).db).result =
      some ("div.card") := by
  have h := cached_selector_short_circuit (some [("div.other")]) none (fun _ => 7)
    (fun _ => 0) ⟨some ("div.card")⟩ ("div.card") rfl (by decide)
  exact h

/-! ## C4 — change detection / idempotency -/

/-- **C4 (code bug).**  The change-detection *decision* works as
specified — equal persisted and live counts skip the listing path while
the snapshot insert is still attempted, and an absent or differing count
runs full extraction and calls the listing insert — but neither insert
can succeed: `main.py:122` and `main.py:129` pass two arguments to the
three-parameter `insert_listings` / `insert_listing_snapshots`
(database.py:108, 141), so each call raises `TypeError` into the `except`
arm.  Listings are never inserted, `update_listing_count` is never
reached, and no snapshot row is ever written. -/
theorem insert_calls_raise_typeerror :
    c4EnvEq.prevCount = some ((c4EnvEq.page ("div.card")).length) ∧
    (scrape_fp c4EnvEq ⟨some ("div.card")⟩).listingInsertCall = none ∧
    (scrape_fp c4EnvEq ⟨some ("div.card")⟩).snapshotInsertCall ≠ none ∧
    (scrape_fp c4EnvEq ⟨some ("div.card")⟩).snapshotsWritten = false ∧
    (scrape_fp c4EnvEq ⟨some ("div.card")⟩).countUpdated = none ∧
    c4EnvDiff.prevCount ≠ some ((c4EnvDiff.page ("div.card")).length) ∧
    (scrape_fp c4EnvDiff ⟨some ("div.card")⟩).listingInsertCall =
      some (get_listings c4EnvDiff.listingReply (c4EnvDiff.page ("div.card"))) ∧
    (scrape_fp c4EnvDiff ⟨some ("div.card")⟩).listingsWritten = false ∧
    (scrape_fp c4EnvDiff ⟨some ("div.card")⟩).countUpdated = none ∧
    (scrape_fp c4EnvDiff ⟨some ("div.card")⟩).snapshotInsertCall = none := by decide

/-! ## C9 — per-task resource cleanup -/

/-- **C9 (code bug).**  On the navigation-timeout exit (`main.py` lines
93-95) `scrape_fp` returns without `nav.close()` or `db.close()`: the
task ends with its browser session and store connection still open,
contradicting the spec's "opened and closed within the task" on every
exit path. -/
theorem timeout_leaves_resources_open :
    (scrape_fp c9EnvTimeout ⟨none⟩).navClosed = false ∧
    (scrape_fp c9EnvTimeout ⟨none⟩).dbClosed = false ∧
    (scrape_fp c9EnvTimeout ⟨none⟩).snapshotInsertCall = none := by decide


/-! ## C5 — price pair validation -/

/-- **C5 (code bug).**  The discard-both semantics holds for numeric
pairs — equal bounds are retained, an inverted pair is dropped entirely —
but the price pattern's `[\d,]+` can capture a bare comma, and
`normalize_price(",")` then evaluates `int(float(""))`, raising
`ValueError`: on `"$,-$,"` the invalid pair is resolved by raising, not
by discarding, so `match_snapshot` propagates an exception (modelled as
`none`). -/
theorem invalid_price_range_raises :
    priceGroups ("$,-$,") = (some (","), some (",")) ∧
    normalize_price (",") = none ∧
    match_snapshot ("$,-$,") = none ∧
    match_snapshot ("$2720 – $2720") =
      some [("price_low", Val.vstr ("2720")), ("price_high", Val.vstr ("2720")),
        ("availability", Val.vnone)] ∧
    match_snapshot ("$9 - $5") =
      some [("price_low", Val.vnone), ("price_high", Val.vnone),
        ("availability", Val.vnone)] := by decide

/-! ## C6 — price bound normalization -/

/-- **C6 counterexample.**  Snapshot extraction on `"$1,695to-$1,760"`
yields the raw matched strings `"1,695"` and `"1,760"` (with thousands
separator), not the integers 1695 and 1760 the claim states. -/
theorem price_bounds_kept_raw_counterexample :
    match_snapshot ("$1,695to-$1,760") =
      some [("price_low", Val.vstr ("1,695")), ("price_high", Val.vstr ("1,760")),
        ("availability", Val.vnone)] ∧
    Val.vstr ("1,695") ≠ Val.vint 1695 ∧
    Val.vstr ("1,760") ≠ Val.vint 1760 := by decide

/-- **C6 (amended).**  Each parsed price bound is normalized — currency
symbols and thousands separators stripped, parsed as an integer — only
inside the range check (`normalize_price_range`); the extracted snapshot
itself keeps the raw matched strings: `"$1,695to-$1,760"` gives
`price_low = "1,695"`, `price_high = "1,760"`, while the normalization
used for the check yields 1695 and 1760. -/
theorem price_bounds_normalized_only_for_check :
    match_snapshot ("$1,695to-$1,760") =
      some [("price_low", Val.vstr ("1,695")), ("price_high", Val.vstr ("1,760")),
        ("availability", Val.vnone)] ∧
    normalize_price ("1,695") = some 1695 ∧
    normalize_price ("1,760") = some 1760 ∧
    normalize_price_range (some ("1,695")) (some ("1,760")) = some true := by decide

/-! ## C8 — topology URL precedence -/

/-- In the merged `site_data` the regex-matched floor-plans URL always
wins: `{**ai_filled, **regex_filled}` (`main.py:62`) puts the regex dict
on the winning side, whatever the semantic extractor replied. -/
theorem topology_regex_url_in_site_data (reply : List String → PyDict) (url : String)
    (hrefs : List (Option String)) (link : String)
    (h : match_fp url hrefs = some link) :
    lookupD (init_site_data reply url hrefs) ("floorplans_url") = some (Val.vstr link) := by
  unfold init_site_data
  rw [h]
  have hk : hasKeyD [(("floorplans_url" : String), Val.vstr link)] ("floorplans_url") = true := by
    simp [hasKeyD]
  rw [lookupD_pyMerge, if_pos hk]
  simp [lookupD]

/-- **C8 (code bug).**  The deterministic precedence holds in memory:
whenever the regex link matcher produces a floor-plans URL, the merged
`site_data` carries exactly that URL.  But the claim's "is the one
persisted" never happens: `main.py:72` hands the plain dict to
`Database.insert_site`, whose first statement reads
`site.floorplans_url` as an attribute (database.py:65) and raises
`AttributeError`, so no site row is ever written. -/
theorem regex_url_wins_in_memory_but_never_persisted :
    (∀ reply url hrefs link, match_fp url hrefs = some link →
       lookupD (init_site_data reply url hrefs) ("floorplans_url") = some (Val.vstr link)) ∧
    (∀ reply url hrefs, init_site_persisted reply url hrefs = none) := by
  constructor
  · intro reply url hrefs link h
    exact topology_regex_url_in_site_data reply url hrefs link h
  · intro reply url hrefs
    rfl

/-- **C8 witness.**  The regex matcher finds `/floorplans/`; despite the
extractor proposing a different URL, the merged site data holds the
regex-built absolute URL — and the persistence attempt still writes
nothing. -/
theorem regex_url_wins_in_memory_but_never_persisted_witness :
    lookupD (init_site_data c8Reply ("https://x.com") [some ("/about"), some ("/floorplans/")])
      ("floorplans_url") = some (Val.vstr ("https://x.com/floorplans/")) ∧
    init_site_persisted c8Reply ("https://x.com") [some ("/about"), some ("/floorplans/")] =
      none :=
  ⟨regex_url_wins_in_memory_but_never_persisted.1 c8Reply ("https://x.com")
    [some ("/about"), some ("/floorplans/")] ("https://x.com/floorplans/") (by decide),
   regex_url_wins_in_memory_but_never_persisted.2 c8Reply ("https://x.com")
    [some ("/about"), some ("/floorplans/")]⟩


/-! ## C10 — totality of the matchers -/

/-- **C10 (code bug).**  `match_listing` always returns a dict with
exactly the keys `bedrooms`, `bathrooms`, `sqft`, and whenever
`match_snapshot` returns, its dict has exactly the keys `price_low`,
`price_high`, `availability` — but `match_snapshot` is not total: on
`"$,"` the captured price bound is a bare comma and normalization raises
`ValueError` (modelled as `none`). -/
theorem matchers_total_with_fixed_keys :
    (∀ s, (match_listing s).map Prod.fst = [("bedrooms"), ("bathrooms"), ("sqft")]) ∧
    (∀ s d, match_snapshot s = some d →
      d.map Prod.fst = [("price_low"), ("price_high"), ("availability")]) ∧
    match_snapshot ("$,") = none := by
  refine ⟨?_, ?_, by decide⟩
  · intro s
    obtain ⟨b, x, y, h⟩ := match_listing_shape s
    rw [h, List.map_cons, List.map_cons, List.map_cons, List.map_nil]
  · intro s d h
    obtain ⟨lo, hi, av, h'⟩ := match_snapshot_shape s d h
    rw [h', List.map_cons, List.map_cons, List.map_cons, List.map_nil]

/-- **C10 witness.**  The key sets at concrete inputs, via the theorem. -/
theorem matchers_total_with_fixed_keys_witness :
    (match_listing ("")).map Prod.fst = [("bedrooms"), ("bathrooms"), ("sqft")] ∧
    ((match_snapshot ("$5")).getD []).map Prod.fst =
      [("price_low"), ("price_high"), ("availability")] := by
  refine ⟨matchers_total_with_fixed_keys.1 (""), ?_⟩
  exact matchers_total_with_fixed_keys.2.1 ("$5") ((match_snapshot ("$5")).getD []) (by decide)
